import Mathlib

/-!
Shallow embedding of `src/main.py` (financial-statement analysis automation).

Python floats are modelled as exact rationals (`ℚ`); the spec states all
numeric properties "within floating-point tolerance", and none of the claims
depend on binary rounding.  Python values that may be either a number or a
raw string are modelled by `PyVal`.  Python exceptions are modelled by the
inductive `PyErr`; code that lets an exception escape is modelled in
`Except PyErr`, and `try/except` blocks turn the `.error` branch into the
handler's behaviour.
-/

namespace FA

/-- Kinds of Python exceptions that the embedded code can raise. -/
inductive PyErr where
  | keyError
  | typeError
  | indexError
  | zeroDivisionError
  | valueError
deriving DecidableEq

/-- A Python value that is either a float (modelled as `ℚ`) or a string. -/
inductive PyVal where
  | num (q : ℚ)
  | str (s : String)
deriving DecidableEq

/-- Digits of a numeral to a natural number. -/
def digitsToNat (l : List Char) : ℕ :=
  l.foldl (fun a c => a * 10 + (c.toNat - 48)) 0

/-- Unsigned decimal literal: `digits`, `digits.digits`, `digits.` or `.digits`. -/
def parseUnsigned (l : List Char) : Option ℚ :=
  let ip := l.takeWhile Char.isDigit
  let rest := l.dropWhile Char.isDigit
  match rest with
  | [] => if ip.isEmpty then none else some (digitsToNat ip : ℚ)
  | '.' :: frac =>
      if frac.all Char.isDigit && !(ip.isEmpty && frac.isEmpty) then
        some ((digitsToNat ip : ℚ) + (digitsToNat frac : ℚ) / (10 ^ frac.length))
      else none
  | _ => none

/-- Model of Python `float(s)` on a string: the decimal-literal fragment
(optional sign, digits with optional fractional part).  The empty string and
non-numeric text yield `none` (Python: `ValueError`); special forms such as
`inf`, `nan`, exponents and surrounding whitespace are not modelled — no
claim depends on them. -/
def pyFloat (s : String) : Option ℚ :=
  match s.data with
  | '-' :: r => (parseUnsigned r).map (fun q => -q)
  | '+' :: r => parseUnsigned r
  | r => parseUnsigned r

/-- Python `float(x)` coercion applied to a `PyVal` (`main.py` lines 104-107):
a float passes through, a string is parsed. -/
def pyToFloat : PyVal → Option ℚ
  | .num q => some q
  | .str s => pyFloat s

/-- Embedding of the dataclass `Row` (`main.py` lines 94-100) after
`__post_init__` has run.  `current_year`/`last_year` keep a raw string when
coercion failed (the Python assignment is skipped by the raised exception);
`difference`/`ratio` are `none` when Python sets them to `None`. -/
structure Row where
  name : String
  current_year : PyVal
  last_year : PyVal
  difference : Option ℚ
  ratio : Option ℚ
deriving DecidableEq

/-- Embedding of the static method `Row.calculate_ratio` (`main.py` lines
118-123): sign flip across years means no ratio (`None`); otherwise
`difference / base`, a `ZeroDivisionError` when `base` is zero. -/
def calculate_ratio (difference base current_year last_year : ℚ) :
    Except PyErr (Option ℚ) :=
  if current_year * last_year < 0 then .ok none
  else if base = 0 then .error .zeroDivisionError
  else .ok (some (difference / base))

/-- Embedding of `Row.__post_init__` (`main.py` lines 102-116): coerce both
period values to floats, compute `difference` and `ratio`; any exception
(coercion failure or `ZeroDivisionError` from `calculate_ratio`) is caught
and both derived fields are set to `None`.  The constructor is total: no
exception escapes it. -/
def mkRow (name : String) (cur last : PyVal) : Row :=
  match pyToFloat cur with
  | none => ⟨name, cur, last, none, none⟩
  | some c =>
    match pyToFloat last with
    | none => ⟨name, .num c, last, none, none⟩
    | some l =>
      match calculate_ratio (c - l) l c l with
      | .ok r => ⟨name, .num c, .num l, some (c - l), r⟩
      | .error _ => ⟨name, .num c, .num l, none, none⟩

/-- A name-to-position dictionary: Python `dict[str, int | None]` as an
association list (insertion order preserved, as in Python). -/
def NameIndex : Type := List (String × Option ℕ)

instance : DecidableEq NameIndex := by
  unfold NameIndex
  infer_instance

/-- Python `d[k]` lookup on a `NameIndex`: `none` models a `KeyError`. -/
def lookupIdx : NameIndex → String → Option (Option ℕ)
  | [], _ => none
  | (k', v') :: rest, k => if k' = k then some v' else lookupIdx rest k

/-- Python `d[k] = v` on a `NameIndex`: replace in place, append if new. -/
def setIdx : NameIndex → String → Option ℕ → NameIndex
  | [], k, v => [(k, v)]
  | (k', v') :: rest, k, v =>
      if k' = k then (k, v) :: rest else (k', v') :: setIdx rest k v

/-- The module-level `DEFAULT_COLUMN_ROW_INDEX` dict (`main.py` lines 14-30)
in its initial state.  The three derived-ratio concepts map to `None`. -/
def DEFAULT_COLUMN_ROW_INDEX : NameIndex :=
  [("current_asset", some 7), ("current_liability", some 10),
   ("ncib_debt", some 9), ("equity", some 13), ("ebit", some 2),
   ("interest_costs", some 3), ("debt_service_of_principal", some 12),
   ("revenue", some 1), ("profit", some 4), ("assets", some 8),
   ("liabilities", some 11), ("cash_flow", some 15),
   ("current_ratio", none), ("dte_ratio", none), ("dsc_ratio", none)]

/-- Embedding of the class `Table` (`main.py` lines 131-136).  The Python
constructor binds `self.row_name_index_dict` either to a caller-supplied dict
or to the module-level `DEFAULT_COLUMN_ROW_INDEX` object; because the latter
is an alias to shared mutable state, it is modelled as `rowNameIndex = none`
and the current global dict is passed explicitly to every operation. -/
structure Table where
  rows : List Row
  rowNameIndex : Option NameIndex
deriving DecidableEq

/-- Embedding of `Table.get_row_by_name` (`main.py` lines 174-176), given the
current state `g` of the module-level default dict.  A missing key raises
`KeyError`; a key mapped to `None` makes `self.rows[None]` raise `TypeError`;
an integer position past the end raises `IndexError`. -/
def get_row_by_name (g : NameIndex) (t : Table) (name : String) :
    Except PyErr Row :=
  match lookupIdx (t.rowNameIndex.getD g) name with
  | none => .error .keyError
  | some none => .error .typeError
  | some (some i) =>
      match t.rows[i]? with
      | some r => .ok r
      | none => .error .indexError

/-- One entry of the `ADDITIONAL_ROWS` registry (`main.py` lines 33-53): an
output row name, the formula lambda, and the input concept names in order. -/
structure RegistryEntry where
  name : String
  func : List PyVal → Except PyErr ℚ
  inputs : List String

/-- The lambda of "Current Ratio": `current_asset / current_liability`.
A zero divisor raises `ZeroDivisionError`; a non-float argument (an unparsed
raw string left in a `Row`) or wrong arity raises `TypeError`. -/
def currentRatioFn : List PyVal → Except PyErr ℚ
  | [.num a, .num b] => if b = 0 then .error .zeroDivisionError else .ok (a / b)
  | _ => .error .typeError

/-- The lambda of "Debt to Equity Ratio": `ncib_debt / equity`. -/
def dteFn : List PyVal → Except PyErr ℚ
  | [.num a, .num b] => if b = 0 then .error .zeroDivisionError else .ok (a / b)
  | _ => .error .typeError

/-- The lambda of "Debt Service Coverage Ratio":
`ebit / (interest_costs + debt_service_of_principal)`. -/
def dscFn : List PyVal → Except PyErr ℚ
  | [.num e, .num i, .num d] =>
      if i + d = 0 then .error .zeroDivisionError else .ok (e / (i + d))
  | _ => .error .typeError

/-- The `ADDITIONAL_ROWS` registry (`main.py` lines 33-53), in dict order. -/
def ADDITIONAL_ROWS : List RegistryEntry :=
  [⟨"Current Ratio", currentRatioFn, ["current_asset", "current_liability"]⟩,
   ⟨"Debt to Equity Ratio", dteFn, ["ncib_debt", "equity"]⟩,
   ⟨"Debt Service Coverage Ratio", dscFn,
     ["ebit", "interest_costs", "debt_service_of_principal"]⟩]

/-- Resolve each input name and project one period's value
(the list comprehensions in `main.py` lines 139-150). -/
def resolveValues (g : NameIndex) (t : Table) (names : List String)
    (proj : Row → PyVal) : Except PyErr (List PyVal) :=
  names.mapM (fun n => (get_row_by_name g t n).map proj)

/-- Embedding of `Table.get_values_from_lambda_tuple` (`main.py` lines
138-152): apply the entry's lambda to the current-year values of its inputs,
then to the last-year values; any lookup or arithmetic exception escapes. -/
def computeEntry (e : RegistryEntry) (g : NameIndex) (t : Table) :
    Except PyErr (ℚ × ℚ) := do
  let curVals ← resolveValues g t e.inputs (fun r => r.current_year)
  let c ← e.func curVals
  let lastVals ← resolveValues g t e.inputs (fun r => r.last_year)
  let l ← e.func lastVals
  pure (c, l)

/-- The row appended for one registry entry inside
`Table.generate_additional_rows` (`main.py` lines 156-164): the computed row
on success, the `Row(column_name, "", "")` placeholder when the `try` body
raised. -/
def stepRow (e : RegistryEntry) (s : NameIndex × Table) : Row :=
  match computeEntry e s.1 s.2 with
  | .ok (c, l) => mkRow e.name (.num c) (.num l)
  | .error _ => mkRow e.name (.str "") (.str "")

/-- One iteration of the loop in `Table.generate_additional_rows` (`main.py`
lines 155-172): append the computed or placeholder row, then record its
position in the module-level `DEFAULT_COLUMN_ROW_INDEX` (not in
`self.row_name_index_dict`) under the matching concept key. -/
def stepEntry (e : RegistryEntry) (s : NameIndex × Table) : NameIndex × Table :=
  let rows' := s.2.rows ++ [stepRow e s]
  let pos := rows'.length - 1
  let g' :=
    if e.name = "Current Ratio" then setIdx s.1 "current_ratio" (some pos)
    else if e.name = "Debt to Equity Ratio" then setIdx s.1 "dte_ratio" (some pos)
    else if e.name = "Debt Service Coverage Ratio" then
      setIdx s.1 "dsc_ratio" (some pos)
    else s.1
  (g', ⟨rows', s.2.rowNameIndex⟩)

/-- Embedding of `Table.generate_additional_rows` (`main.py` lines 154-172),
threading the module-level default dict `g` through the loop. -/
def generate_additional_rows (g : NameIndex) (t : Table) : NameIndex × Table :=
  ADDITIONAL_ROWS.foldl (fun s e => stepEntry e s) (g, t)

/-! ### Formatting (`FIELD_FORMATTING_FUNCTIONS`, `remove_tail_dot_zeros`) -/

/-- Round to the nearest integer, ties to even — the rounding used by
Python's fixed-point string formatting.  (Python rounds the binary double;
on the exact rationals used here the two agree up to floating-point
tolerance, which the spec explicitly grants.) -/
def roundHalfEven (q : ℚ) : ℤ :=
  if q - ⌊q⌋ < 1/2 then ⌊q⌋
  else if 1/2 < q - ⌊q⌋ then ⌊q⌋ + 1
  else if ⌊q⌋ % 2 = 0 then ⌊q⌋ else ⌊q⌋ + 1

/-- Two decimal digits with a leading zero. -/
def twoDigits (n : ℕ) : String :=
  (if n < 10 then "0" else "") ++ toString n

/-- Decimal digits of `n` grouped with `,` every three digits
(Python's `,` format flag). -/
def groupedNat (n : ℕ) : String :=
  String.mk (groupAux (toString n).data.reverse).reverse
where
  groupAux : List Char → List Char
    | c1 :: c2 :: c3 :: c4 :: rest => c1 :: c2 :: c3 :: ',' :: groupAux (c4 :: rest)
    | l => l

/-- Render the integer `n` of hundredths as a two-decimal fixed-point
string, with or without thousands grouping. -/
def fixed2 (grouped : Bool) (n : ℤ) : String :=
  (if n < 0 then "-" else "") ++
    (if grouped then groupedNat (n.natAbs / 100) else toString (n.natAbs / 100)) ++
    "." ++ twoDigits (n.natAbs % 100)

/-- Python `"{:.2f}".format(q)`: fixed-point, two decimals, no grouping. -/
def plainFmt2 (q : ℚ) : String := fixed2 false (roundHalfEven (q * 100))

/-- Python `"{:,.2f}".format(q)`: fixed-point, two decimals, thousands
grouping of the integer part. -/
def commaFmt2 (q : ℚ) : String := fixed2 true (roundHalfEven (q * 100))

/-- Python `"{:.2%}".format(q)`: value times 100, two decimals, `%` suffix. -/
def pctFmt2 (q : ℚ) : String := plainFmt2 (q * 100) ++ "%"

/-- Embedding of `remove_tail_dot_zeros` (`main.py` lines 87-91).  On the
two-decimal strings produced by `commaFmt2`, the regex
`(?:(\.)|(\.\d*?[1-9]\d*?))0+(?=\b|[^0-9])` strips every trailing zero of the
fractional part, and the decimal point too when the whole fraction is zeros. -/
def remove_tail_dot_zeros (s : String) : String :=
  if s.data.contains '.' then
    let r := s.data.reverse.dropWhile (fun c => c = '0')
    let r := if r.head? = some '.' then r.tail else r
    String.mk r.reverse
  else s

/-- Embedding of `FIELD_FORMATTING_FUNCTIONS["ratio"]` (`main.py` line 77):
`"{:.2%}".format(x) if x else ""`.  Python truthiness: `None` and `0.0` are
both falsy, so an absent ratio AND a present zero ratio render as `""`. -/
def fmtRatioField : Option ℚ → String
  | none => ""
  | some r => if r = 0 then "" else pctFmt2 r

/-- Embedding of `FIELD_FORMATTING_FUNCTIONS["difference"]` (`main.py` line 78):
`"{:.2f}".format(x) if x else ""`; `None` and `0.0` are falsy. -/
def fmtDifferenceField : Option ℚ → String
  | none => ""
  | some d => if d = 0 then "" else plainFmt2 d

/-- Embedding of `FIELD_FORMATTING_FUNCTIONS["current_year"]` and `["last_year"]`
(`main.py` lines 79-80): `remove_tail_dot_zeros("{:,.2f}".format(x)) if x
else ""`.  A float `0.0` and the empty string are falsy and render as `""`;
formatting a non-empty raw string (a `Row` whose coercion failed) raises
`ValueError`. -/
def fmtPeriod : PyVal → Except PyErr String
  | .num q => if q = 0 then .ok "" else .ok (remove_tail_dot_zeros (commaFmt2 q))
  | .str s => if s = "" then .ok "" else .error .valueError

/-! ### Narrative generation (`generate`, `main.py` lines 182-206) -/

def CURRENCY : String := "$"
def UNIT : String := "m"
def COMPANY_NAME : String := "Wokki Company"
def CURRENT_YEAR_NUMBER : ℕ := 2023
def LAST_YEAR_NUMBER : ℕ := 2022
def SECTION_WITH_UNIT : List String :=
  ["Revenue", "Profit", "Assets, Liabilities and Equity", "Cash flows"]

/-- The flag written when `ratio > 1` (`main.py` line 204). -/
def FLAG_LINE : String := "!!! ratio > 1.0, NEED MORE EXPLANATION"

mutual
/-- A value of the nested section structure
`TXT_SECTION_NAME_TO_COLUMN_NAME`: a concept name (leaf) or a sub-dict. -/
inductive SVal where
  | leaf (col : String)
  | branch (children : SList)

/-- An ordered dict of section name to `SVal`. -/
inductive SList where
  | nil
  | cons (sectionName : String) (v : SVal) (rest : SList)
end

/-- Embedding of `TXT_SECTION_NAME_TO_COLUMN_NAME` (`main.py` lines 57-71). -/
def TXT_SECTION_NAME_TO_COLUMN_NAME : SList :=
  .cons "Revenue" (.leaf "revenue") <|
  .cons "Profit" (.leaf "profit") <|
  .cons "Assets, Liabilities and Equity"
    (.branch (.cons "Assets" (.leaf "assets") <|
              .cons "Liabilities" (.leaf "liabilities") <|
              .cons "Equity" (.leaf "equity") .nil)) <|
  .cons "Current ratio" (.leaf "current_ratio") <|
  .cons "Debt-to-equity and debt service coverage"
    (.branch (.cons "Debt-to-equity ratio" (.leaf "dte_ratio") <|
              .cons "Debt service coverage ratio" (.leaf "dsc_ratio") .nil)) <|
  .cons "Cash flows" (.leaf "cash_flow") .nil

/-- Embedding of `chr(index + ord('a')) + ") "`, the top-level section label. -/
def letterLabel (idx : ℕ) : String := String.mk [Char.ofNat (idx + 97)] ++ ") "

/-- The paragraph f-string of `main.py` lines 197-202, assembled from the
already-formatted period strings.  (Evaluation order inside the f-string —
the `difference >= 0` comparison first, then the formatters — is enforced by
`processLeaf` below.) -/
def paragraphText (sectionName : String) (needUnit : Bool) (d : ℚ)
    (ratio : Option ℚ) (lastStr curStr : String) : String :=
  COMPANY_NAME ++ (" has been " ++ ((if 0 ≤ d then "an increase" else "a decrease") ++ (" in " ++ (sectionName.toLower ++ (" in " ++ (toString LAST_YEAR_NUMBER ++ (" of " ++ ((if needUnit then CURRENCY else "") ++ (fmtDifferenceField (some d) ++ ((if needUnit then UNIT else "") ++ ("(" ++ (fmtRatioField ratio ++ (") from " ++ ((if needUnit then CURRENCY else "") ++ (lastStr ++ ((if needUnit then UNIT else "") ++ (" to " ++ ((if needUnit then CURRENCY else "") ++ (curStr ++ ((if needUnit then UNIT else "") ++ (". The key factors driving this movement are: \n \n")))))))))))))))))))))

/-- The leaf body of `generate` (`main.py` lines 190-204), after the section
header has been written.  Returns the lines written and the exception, if
any, that escaped.  Note the faithful failure points: a lookup exception; a
`TypeError` from `difference >= 0` when `difference` is `None`; a
`ValueError` from formatting an unparsed raw period string; and — after the
paragraph has already been written — a `TypeError` from `ratio > 1` when
`ratio` is `None`. -/
def processLeaf (g : NameIndex) (t : Table) (sectionName col : String)
    (needUnit : Bool) : List String × Option PyErr :=
  match get_row_by_name g t col with
  | .error e => ([], some e)
  | .ok row =>
    match row.difference with
    | none => ([], some .typeError)
    | some d =>
      match fmtPeriod row.last_year with
      | .error e => ([], some e)
      | .ok lastStr =>
        match fmtPeriod row.current_year with
        | .error e => ([], some e)
        | .ok curStr =>
          let para := paragraphText sectionName needUnit d row.ratio lastStr curStr
          match row.ratio with
          | none => ([para], some .typeError)
          | some r => (para :: (if 1 < r then [FLAG_LINE] else []), none)

mutual
/-- Dispatch on one dict value in `generate`: a string leaf or a nested
dict (`main.py` lines 190-206). -/
def genSVal (g : NameIndex) (t : Table) (sectionName : String)
    (needUnit : Bool) : SVal → List String × Option PyErr
  | .leaf col => processLeaf g t sectionName col needUnit
  | .branch children => genSList g t children true needUnit 0

/-- Embedding of `generate` (`main.py` lines 182-206) over the entries of a
section dict: write the (possibly letter-labelled) header, process the
value, stop at the first escaping exception.  `inner` and `isUnit` mirror
the Python keyword arguments; `idx` is the `enumerate` counter. -/
def genSList (g : NameIndex) (t : Table) :
    SList → Bool → Bool → ℕ → List String × Option PyErr
  | .nil, _, _, _ => ([], none)
  | .cons name v rest, inner, isUnit, idx =>
      let lbl := if inner then "" else letterLabel idx
      let header := lbl ++ name ++ " \n"
      let needUnit := isUnit || SECTION_WITH_UNIT.contains name
      let (out, err) := genSVal g t name needUnit v
      match err with
      | some e => (header :: out, some e)
      | none =>
          let (out2, err2) := genSList g t rest inner isUnit (idx + 1)
          (header :: out ++ out2, err2)
end

/-! ### General lemmas about the embedding -/

/-- The constructor stores the given name in every branch. -/
theorem mkRow_name (name : String) (v w : PyVal) : (mkRow name v w).name = name := by
  unfold mkRow
  split
  · rfl
  · split
    · rfl
    · split <;> rfl

/-- The `Row(column_name, "", "")` placeholder has both derived fields absent. -/
theorem mkRow_empty_fields (name : String) :
    (mkRow name (.str "") (.str "")).difference = none ∧
      (mkRow name (.str "") (.str "")).ratio = none := ⟨rfl, rfl⟩

/-- Writing a key into a dict makes it readable. -/
theorem lookupIdx_setIdx_self (g : NameIndex) (k : String) (v : Option ℕ) :
    lookupIdx (setIdx g k v) k = some v := by
  induction g with
  | nil => simp [setIdx, lookupIdx]
  | cons p rest ih =>
    by_cases h : p.1 = k
    · simp [setIdx, lookupIdx, h]
    · simp [setIdx, lookupIdx, h, ih]

/-- Writing a key into a dict leaves other keys unchanged. -/
theorem lookupIdx_setIdx_other (g : NameIndex) (k k' : String) (v : Option ℕ)
    (h : k' ≠ k) : lookupIdx (setIdx g k v) k' = lookupIdx g k' := by
  have hk : ¬ (k = k') := fun a => h a.symm
  induction g with
  | nil => simp [setIdx, lookupIdx, hk]
  | cons p rest ih =>
    obtain ⟨pk, pv⟩ := p
    by_cases hp : pk = k
    · subst hp
      simp [setIdx, lookupIdx, hk]
    · by_cases hp' : pk = k'
      · subst hp'
        simp [setIdx, lookupIdx, hp, h]
      · simp [setIdx, lookupIdx, hp, hp', ih]

/-! ### Claims about `Row` construction -/

/-- C1 counterexample: with `current_period = 1` and `prior_period = 0` —
both numeric — the caught `ZeroDivisionError` from `calculate_ratio` makes
`__post_init__` set `difference` to `None`, so `difference` is NOT present
and equal to `current - prior`. -/
theorem c1_zero_prior_difference_absent :
    (mkRow "x" (PyVal.num 1) (PyVal.num 0)).difference ≠ some (1 - 0) := by
  have h : (mkRow "x" (PyVal.num 1) (PyVal.num 0)).difference = none := by
    norm_num [mkRow, pyToFloat, calculate_ratio]
  rw [h]
  simp

/-- C1 (amended): for numeric period values, `difference` is present and
equals `current - prior` whenever `prior ≠ 0`; when `prior = 0` the caught
`ZeroDivisionError` wipes both derived fields. -/
theorem c1_difference_eq (name : String) (v w : PyVal) (c l : ℚ)
    (hv : pyToFloat v = some c) (hw : pyToFloat w = some l) :
    (l ≠ 0 → (mkRow name v w).difference = some (c - l)) ∧
    (l = 0 → (mkRow name v w).difference = none ∧ (mkRow name v w).ratio = none) := by
  unfold mkRow calculate_ratio
  rw [hv, hw]
  constructor
  · intro hl
    by_cases hcl : c * l < 0 <;> simp [hcl, hl]
  · intro hl
    subst hl
    simp

/-- C1 witness: `(3, 2)` gives `difference = some (3 - 2)`. -/
theorem c1_difference_eq_witness :
    (mkRow "x" (PyVal.num 3) (PyVal.num 2)).difference = some (3 - 2) :=
  (c1_difference_eq "x" (PyVal.num 3) (PyVal.num 2) 3 2 rfl rfl).1 (by norm_num)

/-- C2: for numeric period values, `ratio` is absent on a sign flip
(`current * prior < 0`) while `difference` is still present; with no sign
flip and `prior ≠ 0`, `ratio = difference / prior`; and the division by zero
at `prior = 0` is contained (both derived fields set absent — `mkRow` is a
total function, so no fault escapes the constructor). -/
theorem c2_ratio_rule (name : String) (v w : PyVal) (c l : ℚ)
    (hv : pyToFloat v = some c) (hw : pyToFloat w = some l) :
    (c * l < 0 →
      (mkRow name v w).ratio = none ∧ (mkRow name v w).difference = some (c - l)) ∧
    (¬ c * l < 0 → l ≠ 0 →
      (mkRow name v w).ratio = some ((c - l) / l) ∧
      (mkRow name v w).difference = some (c - l)) ∧
    (l = 0 →
      (mkRow name v w).ratio = none ∧ (mkRow name v w).difference = none) := by
  unfold mkRow calculate_ratio
  rw [hv, hw]
  refine ⟨fun hcl => by simp [hcl], fun hcl hl => by simp [hcl, hl], fun hl => ?_⟩
  subst hl
  simp

/-- C2 witness: `(-50, 100)` is a sign flip — `ratio` absent, `difference`
present. -/
theorem c2_ratio_rule_witness :
    (mkRow "x" (PyVal.num (-50)) (PyVal.num 100)).ratio = none ∧
      (mkRow "x" (PyVal.num (-50)) (PyVal.num 100)).difference = some (-50 - 100) :=
  (c2_ratio_rule "x" (PyVal.num (-50)) (PyVal.num 100) (-50) 100 rfl rfl).1
    (by norm_num)

/-- C5: `mkRow` is a total function (construction always succeeds — the
embedding of "never raises past the constructor's boundary"), and when
either period value fails to coerce to a number the row still exists, keeps
its name, and has both derived fields absent. -/
theorem c5_construction_contained (name : String) (v w : PyVal)
    (h : pyToFloat v = none ∨ pyToFloat w = none) :
    (mkRow name v w).name = name ∧ (mkRow name v w).difference = none ∧
      (mkRow name v w).ratio = none := by
  refine ⟨mkRow_name name v w, ?_⟩
  unfold mkRow
  rcases h with h | h
  · rw [h]
    exact ⟨rfl, rfl⟩
  · cases hv : pyToFloat v with
    | none => exact ⟨rfl, rfl⟩
    | some c =>
      rw [h]
      exact ⟨rfl, rfl⟩

/-- C5 witness: the empty string and non-numeric text both fail coercion;
the row survives with absent derived fields. -/
theorem c5_construction_contained_witness :
    (mkRow "row7" (PyVal.str "") (PyVal.str "12x")).name = "row7" ∧
      (mkRow "row7" (PyVal.str "") (PyVal.str "12x")).difference = none ∧
      (mkRow "row7" (PyVal.str "") (PyVal.str "12x")).ratio = none :=
  c5_construction_contained "row7" (PyVal.str "") (PyVal.str "12x")
    (Or.inl (by decide))

/-! ### Claims about `Table.get_row_by_name` -/

/-- C9 counterexample: on a fresh `Table` using the default index, looking up
the derived-metric name `"current_ratio"` (present in the dict, mapped to
`None`) fails with a `TypeError` (`self.rows[None]`), not with a
KeyError-class condition. -/
theorem c9_none_position_is_type_error :
    get_row_by_name DEFAULT_COLUMN_ROW_INDEX ⟨[], none⟩ "current_ratio"
        = .error .typeError ∧ PyErr.typeError ≠ PyErr.keyError :=
  ⟨rfl, by decide⟩

/-- C9 (amended): `get_row_by_name` fails with `KeyError` exactly when the
name is absent from the effective index; a name mapped to the `None`
placeholder (a derived-metric name before `generate_additional_rows` has
run) fails with `TypeError`; a stale integer position fails with
`IndexError`; a valid position returns the row. -/
theorem c9_resolve_error_classes (g : NameIndex) (t : Table) (name : String) :
    (lookupIdx (t.rowNameIndex.getD g) name = none →
      get_row_by_name g t name = .error .keyError) ∧
    (lookupIdx (t.rowNameIndex.getD g) name = some none →
      get_row_by_name g t name = .error .typeError) ∧
    (∀ i, lookupIdx (t.rowNameIndex.getD g) name = some (some i) →
      t.rows.length ≤ i → get_row_by_name g t name = .error .indexError) ∧
    (∀ i r, lookupIdx (t.rowNameIndex.getD g) name = some (some i) →
      t.rows[i]? = some r → get_row_by_name g t name = .ok r) := by
  refine ⟨fun h => ?_, fun h => ?_, fun i h hlen => ?_, fun i r h hr => ?_⟩
  · simp [get_row_by_name, h]
  · simp [get_row_by_name, h]
  · have hn : t.rows[i]? = none := List.getElem?_eq_none hlen
    simp [get_row_by_name, h, hn]
  · simp [get_row_by_name, h, hr]

/-- C9 witness: a name absent from the index gives `KeyError`; a `None`
position gives `TypeError`. -/
theorem c9_resolve_error_classes_witness :
    get_row_by_name DEFAULT_COLUMN_ROW_INDEX ⟨[], none⟩ "no_such_concept"
        = .error .keyError ∧
      get_row_by_name DEFAULT_COLUMN_ROW_INDEX ⟨[], none⟩ "dte_ratio"
        = .error .typeError :=
  ⟨(c9_resolve_error_classes DEFAULT_COLUMN_ROW_INDEX ⟨[], none⟩
      "no_such_concept").1 (by decide),
   (c9_resolve_error_classes DEFAULT_COLUMN_ROW_INDEX ⟨[], none⟩
      "dte_ratio").2.1 (by decide)⟩

/-! ### Claims about the output formatters -/

/-- Rounding an integer-valued rational is the identity. -/
theorem roundHalfEven_intCast (n : ℤ) : roundHalfEven (n : ℚ) = n := by
  simp [roundHalfEven]

/-- Evaluate `"{:.2f}"` once the scaled value is a known integer. -/
theorem plainFmt2_ofInt (q : ℚ) (n : ℤ) (h : q * 100 = (n : ℚ)) :
    plainFmt2 q = fixed2 false n := by
  unfold plainFmt2
  rw [h, roundHalfEven_intCast]

/-- Evaluate `"{:,.2f}"` once the scaled value is a known integer. -/
theorem commaFmt2_ofInt (q : ℚ) (n : ℤ) (h : q * 100 = (n : ℚ)) :
    commaFmt2 q = fixed2 true n := by
  unfold commaFmt2
  rw [h, roundHalfEven_intCast]

/-- C10 counterexample: the formatters use Python truthiness (`if x`), so a
PRESENT value of `0` renders as the empty string, not numerically; and the
trailing-zero regex strips every trailing fractional zero, so `1250.5`
renders as `"1,250.5"`, not `"1,250.50"` as the claim's example states. -/
theorem c10_formatting_counterexample :
    fmtRatioField (some 0) = "" ∧ "" ≠ "0.00%" ∧
      fmtPeriod (PyVal.num (2501 / 2)) = .ok "1,250.5" ∧
      "1,250.5" ≠ "1,250.50" := by
  have h0 : ((2501 : ℚ) / 2) ≠ 0 := by norm_num
  have h1 : commaFmt2 ((2501 : ℚ) / 2) = fixed2 true 125050 :=
    commaFmt2_ofInt _ _ (by norm_num)
  refine ⟨rfl, by decide, ?_, by decide⟩
  simp only [fmtPeriod, h0, h1, if_false, Except.ok.injEq]
  decide

/-- C10 (amended): `ratio` is formatted as a two-decimal percentage,
`difference` as two-decimal fixed-point, and the period values as
thousands-grouped two-decimal with ALL trailing fractional zeros trimmed —
but each formatter yields the empty string whenever its value is falsy
(absent, zero, or an empty raw string), not only when absent. -/
theorem c10_formatting_rules :
    fmtRatioField none = "" ∧ fmtRatioField (some 0) = "" ∧
      fmtRatioField (some (3 / 2)) = "150.00%" ∧
      fmtDifferenceField none = "" ∧ fmtDifferenceField (some 0) = "" ∧
      fmtDifferenceField (some (-3 / 2)) = "-1.50" ∧
      fmtPeriod (PyVal.num 0) = .ok "" ∧
      fmtPeriod (PyVal.num (2501 / 2)) = .ok "1,250.5" ∧
      fmtPeriod (PyVal.num 1250) = .ok "1,250" ∧
      fmtPeriod (PyVal.str "") = .ok "" ∧
      (∀ q : ℚ, q ≠ 0 →
        fmtRatioField (some q) = pctFmt2 q ∧
        fmtDifferenceField (some q) = plainFmt2 q ∧
        fmtPeriod (PyVal.num q) = .ok (remove_tail_dot_zeros (commaFmt2 q))) := by
  have h32 : ((3 : ℚ) / 2) ≠ 0 := by norm_num
  have hm32 : ((-3 : ℚ) / 2) ≠ 0 := by norm_num
  have h1250 : ((1250 : ℚ)) ≠ 0 := by norm_num
  have hq1250 : ((2501 : ℚ) / 2) ≠ 0 := by norm_num
  have e1 : pctFmt2 ((3 : ℚ) / 2) = fixed2 false 15000 ++ "%" := by
    unfold pctFmt2
    rw [plainFmt2_ofInt _ 15000 (by norm_num)]
  have e2 : plainFmt2 ((-3 : ℚ) / 2) = fixed2 false (-150) :=
    plainFmt2_ofInt _ _ (by norm_num)
  have e3 : commaFmt2 ((2501 : ℚ) / 2) = fixed2 true 125050 :=
    commaFmt2_ofInt _ _ (by norm_num)
  have e4 : commaFmt2 ((1250 : ℚ)) = fixed2 true 125000 :=
    commaFmt2_ofInt _ _ (by norm_num)
  refine ⟨rfl, rfl, ?_, rfl, rfl, ?_, by simp [fmtPeriod], ?_, ?_, rfl,
    fun q hq => ⟨by simp [fmtRatioField, hq], by simp [fmtDifferenceField, hq],
      by simp [fmtPeriod, hq]⟩⟩
  · simp only [fmtRatioField, h32, if_false, e1]
    decide
  · simp only [fmtDifferenceField, hm32, if_false, e2]
    decide
  · simp only [fmtPeriod, hq1250, h1250, if_false, Except.ok.injEq, e3]
    decide
  · simp only [fmtPeriod, h1250, if_false, Except.ok.injEq, e4]
    decide

/-- C10 witness: a nonzero ratio goes through the percentage formatter. -/
theorem c10_formatting_rules_witness :
    fmtRatioField (some 1) = pctFmt2 1 :=
  (c10_formatting_rules.2.2.2.2.2.2.2.2.2.2 1 (by norm_num)).1

/-! ### Claims about `Table.generate_additional_rows` -/

/-- Lemma: `generate_additional_rows` records the three derived positions in the
module-level default dict, keyed by concept name. -/
theorem gar_fst (g : NameIndex) (t : Table) :
    (generate_additional_rows g t).1
      = setIdx (setIdx (setIdx g "current_ratio" (some t.rows.length))
          "dte_ratio" (some (t.rows.length + 1))) "dsc_ratio"
          (some (t.rows.length + 2)) := by
  simp [generate_additional_rows, ADDITIONAL_ROWS, stepEntry]

/-- Lemma: `generate_additional_rows` never touches the table's own
`row_name_index_dict` binding. -/
theorem gar_rowNameIndex (g : NameIndex) (t : Table) :
    (generate_additional_rows g t).2.rowNameIndex = t.rowNameIndex := by
  simp [generate_additional_rows, ADDITIONAL_ROWS, stepEntry]

/-- The first appended row sits right after the original rows and is the
"Current Ratio" row computed (or placeholdered) from the initial state. -/
theorem gar_first_new_row (g : NameIndex) (t : Table) :
    (generate_additional_rows g t).2.rows[t.rows.length]?
      = some (stepRow ⟨"Current Ratio", currentRatioFn,
          ["current_asset", "current_liability"]⟩ (g, t)) := by
  simp only [generate_additional_rows, ADDITIONAL_ROWS, List.foldl, stepEntry]
  rw [List.append_assoc, List.append_assoc,
    List.getElem?_append_right (le_refl _), Nat.sub_self]
  rfl

/-- C3: `generate_additional_rows` always completes — it appends exactly one
row per registry entry — and each loop iteration is isolated: it appends the
row computed from its own entry; when that entry's computation raises
(missing input, bad lookup, division by zero, unparsed operand) the appended
row is the `Row(column_name, "", "")` placeholder, named after the entry's
output name, with absent `difference` and `ratio`. -/
theorem c3_derived_metrics_isolation (g : NameIndex) (t : Table) :
    (generate_additional_rows g t).2.rows.length
        = t.rows.length + ADDITIONAL_ROWS.length ∧
    (∀ e s, e ∈ ADDITIONAL_ROWS →
      (stepEntry e s).2.rows = s.2.rows ++ [stepRow e s] ∧
      (stepRow e s).name = e.name ∧
      (∀ err, computeEntry e s.1 s.2 = .error err →
        (stepRow e s).difference = none ∧ (stepRow e s).ratio = none) ∧
      (∀ c l, computeEntry e s.1 s.2 = .ok (c, l) →
        stepRow e s = mkRow e.name (.num c) (.num l))) := by
  constructor
  · simp [generate_additional_rows, ADDITIONAL_ROWS, stepEntry]
  · intro e s _
    refine ⟨by simp [stepEntry], ?_, ?_, ?_⟩
    · unfold stepRow
      split <;> exact mkRow_name _ _ _
    · intro err herr
      have h : stepRow e s = mkRow e.name (.str "") (.str "") := by
        unfold stepRow
        rw [herr]
      rw [h]
      exact mkRow_empty_fields e.name
    · intro c l hok
      unfold stepRow
      rw [hok]

/-- C3 witness: on an empty table every entry fails (all lookups are out of
range) and the "Debt to Equity Ratio" iteration appends a placeholder with
absent derived fields; the run still appends one row per entry. -/
theorem c3_derived_metrics_isolation_witness :
    (generate_additional_rows DEFAULT_COLUMN_ROW_INDEX ⟨[], none⟩).2.rows.length
        = 0 + ADDITIONAL_ROWS.length ∧
    (stepRow ⟨"Debt to Equity Ratio", dteFn, ["ncib_debt", "equity"]⟩
        (DEFAULT_COLUMN_ROW_INDEX, ⟨[], none⟩)).difference = none ∧
    (stepRow ⟨"Debt to Equity Ratio", dteFn, ["ncib_debt", "equity"]⟩
        (DEFAULT_COLUMN_ROW_INDEX, ⟨[], none⟩)).ratio = none := by
  refine ⟨(c3_derived_metrics_isolation DEFAULT_COLUMN_ROW_INDEX ⟨[], none⟩).1, ?_⟩
  exact ((c3_derived_metrics_isolation DEFAULT_COLUMN_ROW_INDEX ⟨[], none⟩).2
      ⟨"Debt to Equity Ratio", dteFn, ["ncib_debt", "equity"]⟩
      (DEFAULT_COLUMN_ROW_INDEX, ⟨[], none⟩)
      (by unfold ADDITIONAL_ROWS
          exact List.mem_cons_of_mem _ (List.mem_cons_self _ _))).2.2.1
    .indexError rfl

/-- C4 counterexample: after `generate_additional_rows` on a fresh default
`Table`, resolving the registry entry's `output_name` "Current Ratio" fails
with a `KeyError` — the position was never recorded under the output name
(it went under the concept key `"current_ratio"` instead). -/
theorem c4_output_name_unresolvable :
    get_row_by_name (generate_additional_rows DEFAULT_COLUMN_ROW_INDEX ⟨[], none⟩).1
        (generate_additional_rows DEFAULT_COLUMN_ROW_INDEX ⟨[], none⟩).2
        "Current Ratio" = .error .keyError := rfl

/-- C4 (amended): `generate_additional_rows` records the appended rows'
positions in the module-level `DEFAULT_COLUMN_ROW_INDEX` under the concept
keys `"current_ratio"`/`"dte_ratio"`/`"dsc_ratio"` — not under the entries'
output names, and never in the ledger's own custom `row_name_index_dict`
(which is left untouched).  A ledger aliasing the default index can then
resolve the concept key to the derived row. -/
theorem c4_positions_recorded_in_default_index (g : NameIndex) (rs : List Row) :
    lookupIdx (generate_additional_rows g ⟨rs, none⟩).1 "current_ratio"
        = some (some rs.length) ∧
    lookupIdx (generate_additional_rows g ⟨rs, none⟩).1 "dte_ratio"
        = some (some (rs.length + 1)) ∧
    lookupIdx (generate_additional_rows g ⟨rs, none⟩).1 "dsc_ratio"
        = some (some (rs.length + 2)) ∧
    lookupIdx (generate_additional_rows g ⟨rs, none⟩).1 "Current Ratio"
        = lookupIdx g "Current Ratio" ∧
    (∀ t : Table, (generate_additional_rows g t).2.rowNameIndex = t.rowNameIndex) ∧
    get_row_by_name (generate_additional_rows g ⟨rs, none⟩).1
        (generate_additional_rows g ⟨rs, none⟩).2 "current_ratio"
      = .ok (stepRow ⟨"Current Ratio", currentRatioFn,
          ["current_asset", "current_liability"]⟩ (g, ⟨rs, none⟩)) := by
  have hg := gar_fst g ⟨rs, none⟩
  have hcr : lookupIdx (generate_additional_rows g ⟨rs, none⟩).1 "current_ratio"
      = some (some rs.length) := by
    rw [hg, lookupIdx_setIdx_other _ _ _ _ (by decide),
      lookupIdx_setIdx_other _ _ _ _ (by decide), lookupIdx_setIdx_self]
  refine ⟨hcr, ?_, ?_, ?_, fun t => gar_rowNameIndex g t, ?_⟩
  · rw [hg, lookupIdx_setIdx_other _ _ _ _ (by decide), lookupIdx_setIdx_self]
  · rw [hg, lookupIdx_setIdx_self]
  · rw [hg, lookupIdx_setIdx_other _ _ _ _ (by decide),
      lookupIdx_setIdx_other _ _ _ _ (by decide),
      lookupIdx_setIdx_other _ _ _ _ (by decide)]
  · have hget : (generate_additional_rows g ⟨rs, none⟩).2.rows[rs.length]?
        = some (stepRow ⟨"Current Ratio", currentRatioFn,
            ["current_asset", "current_liability"]⟩ (g, ⟨rs, none⟩)) :=
      gar_first_new_row g ⟨rs, none⟩
    unfold get_row_by_name
    rw [gar_rowNameIndex g ⟨rs, none⟩]
    simp only [Option.getD, hcr, hget]

/-- C6 counterexample: a second, fresh default-index `Table` constructed
after one run of `generate_additional_rows` behaves differently from a truly
fresh process state when resolving `"current_ratio"` (an `IndexError`
against the recorded position instead of the pristine `TypeError` on the
`None` placeholder) — the first run's writes to the module-level dict are
observable across ledgers. -/
theorem c6_second_ledger_observes_first_run :
    get_row_by_name (generate_additional_rows DEFAULT_COLUMN_ROW_INDEX ⟨[], none⟩).1
        ⟨[], none⟩ "current_ratio"
      ≠ get_row_by_name DEFAULT_COLUMN_ROW_INDEX ⟨[], none⟩ "current_ratio" := by
  have h1 : get_row_by_name
      (generate_additional_rows DEFAULT_COLUMN_ROW_INDEX ⟨[], none⟩).1
      ⟨[], none⟩ "current_ratio" = .error .indexError := rfl
  have h2 : get_row_by_name DEFAULT_COLUMN_ROW_INDEX ⟨[], none⟩ "current_ratio"
      = .error .typeError := rfl
  rw [h1, h2]
  simp only [ne_eq, Except.error.injEq]
  decide

/-- C6 (amended): `generate_additional_rows` mutates, besides the ledger's
own `rows`, the shared module-level `DEFAULT_COLUMN_ROW_INDEX` (writing the
derived-row positions over its `None` placeholders); any later `Table`
aliasing the default index — the unit the spec calls a fresh analysis —
observes those positions. -/
theorem c6_default_index_shared_across_runs (g : NameIndex) (rs : List Row) :
    lookupIdx (generate_additional_rows g ⟨rs, none⟩).1 "current_ratio"
        = some (some rs.length) ∧
    lookupIdx DEFAULT_COLUMN_ROW_INDEX "current_ratio" = some none ∧
    (∀ t : Table, (generate_additional_rows g t).2.rowNameIndex = t.rowNameIndex ∧
      (generate_additional_rows g t).2.rows.length = t.rows.length + 3) := by
  refine ⟨?_, by decide, fun t => ⟨gar_rowNameIndex g t, ?_⟩⟩
  · rw [gar_fst g ⟨rs, none⟩, lookupIdx_setIdx_other _ _ _ _ (by decide),
      lookupIdx_setIdx_other _ _ _ _ (by decide), lookupIdx_setIdx_self]
  · simp [generate_additional_rows, ADDITIONAL_ROWS, stepEntry]

/-! ### Claims about the narrative walk (`generate`) -/

/-- Formatting a numeric period value never raises. -/
theorem fmtPeriod_num_ok (q : ℚ) : ∃ s, fmtPeriod (PyVal.num q) = .ok s := by
  unfold fmtPeriod
  by_cases h : q = 0 <;> simp [h]

/-- A section-header line (which ends in a newline) is never the flag line. -/
theorem append_newline_ne_flag (x y : String) (hy : y.data.getLast? = some '\n') :
    x ++ y ≠ FLAG_LINE := by
  intro he
  have hne : y.data ≠ [] := by
    intro h0
    rw [h0] at hy
    exact absurd hy (by decide)
  have h2 : (x ++ y).data.getLast? = some '\n' := by
    rw [String.data_append, List.getLast?_append_of_ne_nil _ hne, hy]
  rw [he] at h2
  exact absurd h2 (by decide)

/-- A narrative paragraph (which starts with the company name) is never the
flag line. -/
theorem paragraphText_ne_flag (sectionName : String) (needUnit : Bool) (d : ℚ)
    (ratio : Option ℚ) (lastStr curStr : String) :
    paragraphText sectionName needUnit d ratio lastStr curStr ≠ FLAG_LINE := by
  intro he
  have h : (paragraphText sectionName needUnit d ratio lastStr curStr).data.head?
      = some 'W' := by
    unfold paragraphText
    rw [String.data_append]
    rfl
  rw [he] at h
  exact absurd h (by decide)

/-- A single-leaf section dict buried under `k` levels of nested sub-dicts:
the shape used to check that the flag rule is applied uniformly at any
nesting depth. -/
def nestK : ℕ → SList → SList
  | 0, s => s
  | k + 1, s => .cons "Wrap" (.branch (nestK k s)) .nil

/-- A one-row table whose single concept `"concept"` resolves (through a
custom index) to a row with the given numeric periods, `difference` and
`ratio`. -/
def c7Table (c l d r : ℚ) : Table :=
  ⟨[⟨"x", .num c, .num l, some d, some r⟩], some [("concept", some 0)]⟩

theorem append_nl_getLast (z : String) :
    (z ++ " \n").data.getLast? = some '\n' := by
  rw [String.data_append, List.getLast?_append_of_ne_nil _ (by decide)]
  decide

theorem c7_aux (c l d r : ℚ) (k : ℕ) (inner isUnit : Bool) (idx : ℕ) :
    (FLAG_LINE ∈ (genSList DEFAULT_COLUMN_ROW_INDEX (c7Table c l d r)
        (nestK k (.cons "Revenue" (.leaf "concept") .nil)) inner isUnit idx).1
      ↔ 1 < r) ∧
    (genSList DEFAULT_COLUMN_ROW_INDEX (c7Table c l d r)
        (nestK k (.cons "Revenue" (.leaf "concept") .nil)) inner isUnit idx).2
      = none := by
  induction k generalizing inner isUnit idx with
  | zero =>
    have hres : get_row_by_name DEFAULT_COLUMN_ROW_INDEX (c7Table c l d r)
        "concept" = .ok ⟨"x", .num c, .num l, some d, some r⟩ := rfl
    obtain ⟨ls, hls⟩ := fmtPeriod_num_ok l
    obtain ⟨cs, hcs⟩ := fmtPeriod_num_ok c
    have hhd : ∀ x : String, ¬ FLAG_LINE = x ++ "Revenue \n" :=
      fun x h => append_newline_ne_flag x "Revenue \n" (by decide) h.symm
    have hpar : ∀ u : Bool,
        ¬ FLAG_LINE = paragraphText "Revenue" u d (some r) ls cs :=
      fun u h => paragraphText_ne_flag "Revenue" u d (some r) ls cs h.symm
    rcases lt_or_le 1 r with hr | hr
    · simp [nestK, genSList, genSVal, processLeaf, hres, hls, hcs, hr,
        String.append_assoc, SECTION_WITH_UNIT, hhd, hpar]
    · simp [nestK, genSList, genSVal, processLeaf, hres, hls, hcs,
        not_lt.mpr hr, hhd, hpar, String.append_assoc, SECTION_WITH_UNIT]
  | succ k ih =>
    have hhdW : ∀ x : String, ¬ FLAG_LINE = x ++ "Wrap \n" :=
      fun x h => append_newline_ne_flag x "Wrap \n" (by decide) h.symm
    have h1 := (ih true isUnit 0).1
    have h2 := (ih true isUnit 0).2
    constructor
    · simp [nestK, genSList, genSVal, h2, SECTION_WITH_UNIT, hhdW, h1,
        String.append_assoc]
    · simp [nestK, genSList, genSVal, h2, SECTION_WITH_UNIT,
        String.append_assoc]

/-- C7: in a section tree consisting of one leaf nested at an arbitrary
depth `k`, the narrative walk succeeds and appends the
"NEED MORE EXPLANATION" flag line exactly when the resolved row's `ratio`
exceeds 1, for every numeric `current`/`last`/`difference`/`ratio` values —
i.e. the `ratio > 1` rule is applied uniformly at every nesting depth. -/
theorem c7_flag_iff_ratio_gt_one (k : ℕ) (c l d r : ℚ) :
    (FLAG_LINE ∈ (genSList DEFAULT_COLUMN_ROW_INDEX (c7Table c l d r)
        (nestK k (.cons "Revenue" (.leaf "concept") .nil)) false false 0).1
      ↔ 1 < r) ∧
    (genSList DEFAULT_COLUMN_ROW_INDEX (c7Table c l d r)
        (nestK k (.cons "Revenue" (.leaf "concept") .nil)) false false 0).2
      = none :=
  c7_aux c l d r k false false 0

/-- C8: evaluation at the failing input.  A leaf row with a sign flip
(current `-50`, prior `100`) has `difference = -150` and an absent `ratio`;
the narrative walk writes the section header and the paragraph — rendering
the absent ratio as the empty marker `()` via the formatter's falsy check —
but then the `ratio > 1` comparison on `None` raises a `TypeError` that
aborts the narrative pass, instead of completing as the claim requires. -/
theorem c8_absent_ratio_aborts_narrative :
    mkRow "profit" (PyVal.num (-50)) (PyVal.num 100)
      = ⟨"profit", PyVal.num (-50), PyVal.num 100, some (-150), none⟩ ∧
    genSList DEFAULT_COLUMN_ROW_INDEX
        ⟨[⟨"profit", PyVal.num (-50), PyVal.num 100, some (-150), none⟩],
          some [("profit", some 0)]⟩
        (.cons "Profit" (.leaf "profit") .nil) false false 0
      = (["a) Profit \n",
          paragraphText "Profit" true (-150) none "100" "-50"],
         some .typeError) := by
  constructor
  · have hflip : ((-50 : ℚ)) * 100 < 0 := by norm_num
    norm_num [mkRow, pyToFloat, calculate_ratio, hflip]
  · have hres : get_row_by_name DEFAULT_COLUMN_ROW_INDEX
        ⟨[⟨"profit", PyVal.num (-50), PyVal.num 100, some (-150), none⟩],
          some [("profit", some 0)]⟩ "profit"
        = .ok ⟨"profit", PyVal.num (-50), PyVal.num 100, some (-150), none⟩ := rfl
    have h100 : fmtPeriod (PyVal.num 100) = .ok "100" := by
      have hc : commaFmt2 (100 : ℚ) = fixed2 true 10000 :=
        commaFmt2_ofInt _ _ (by norm_num)
      have hne : ((100 : ℚ)) ≠ 0 := by norm_num
      simp only [fmtPeriod, hne, if_false, hc, Except.ok.injEq]
      decide
    have h50 : fmtPeriod (PyVal.num (-50)) = .ok "-50" := by
      have hc : commaFmt2 ((-50 : ℚ)) = fixed2 true (-5000) :=
        commaFmt2_ofInt _ _ (by norm_num)
      have hne : ((-50 : ℚ)) ≠ 0 := by norm_num
      simp only [fmtPeriod, hne, if_false, hc, Except.ok.injEq]
      decide
    have hlbl : letterLabel 0 ++ "Profit \n" = "a) Profit \n" := by decide
    simp [genSList, genSVal, processLeaf, hres, h100, h50,
      SECTION_WITH_UNIT, String.append_assoc, hlbl]

end FA
